import Mathlib

/-!
Verification of the authorization / tenant-isolation core and the
soft-delete lifecycle engine of the Task-Manager backend.

The definitions below are a shallow embedding of:
  * backend/middleware/authorization.js  (scope resolver, permission matrix)
  * backend/middleware/auth.js           (authenticate)
  * backend/models/plugins/softDelete.js (tombstone fields, hooks, query
    rewriting, cascade)
  * backend/models/*.js                  (cascade configuration, indexes)
  * backend/controllers/organizationController.js (restoreOrganization)

Document ids (Mongo ObjectIds) are modelled as natural numbers; the
platform organization id "000000000000000000000000" is modelled as 0.
Role / action / resource names stay strings, as in the source.
-/

namespace TaskManager

/-- The reserved platform organization id (constants PLATFORM_ORGANIZATION_ID,
"000000000000000000000000", modelled as 0). -/
def platformOrgId : Nat := 0

/-! ## Scope resolver (backend/middleware/authorization.js, determineScopeLevel) -/

/-- Symbolic scope levels returned by the scope resolver. -/
inductive ScopeLevel where
  | own
  | ownDept
  | crossDept
  | crossOrg
deriving DecidableEq, Repr

/-- The acting user's normalized context: `user._id`, `user.organization._id`,
`user.department._id`, `user.role` as used by the middleware. -/
structure UserCtx where
  id : Nat
  orgId : Nat
  deptId : Nat
  role : String
deriving DecidableEq, Repr

/-- A target resource document as seen by `determineScopeLevel`:
its own `_id` and the optional `organization` / `department` / `createdBy`
reference fields (absent fields are `none`). -/
structure RawResource where
  id : Nat
  organization : Option Nat := none
  department : Option Nat := none
  createdBy : Option Nat := none
deriving DecidableEq, Repr

/-- Field extraction of (targetUserId, targetOrgId, targetDeptId) from the
target resource, by resource type (authorization.js lines 94-123). -/
def extractTargetIds (t : RawResource) (resourceType : String) :
    Option Nat × Option Nat × Option Nat :=
  if resourceType = "user" then
    (some t.id, t.organization, t.department)
  else if resourceType = "organization" then
    (none, some t.id, none)
  else if resourceType = "department" then
    (none, t.organization, some t.id)
  else
    (t.createdBy, t.organization, t.department)

/-- `determineScopeLevel` (authorization.js lines 93-158): first-match-wins
cascade own → crossOrg/none → crossDept → ownDept → ownDept(org-level) → none.
Returns `none` when no valid scope is determined (the JS `null`). -/
def determineScopeLevel (user : UserCtx) (t : RawResource) (resourceType : String) :
    Option ScopeLevel :=
  let ids := extractTargetIds t resourceType
  let targetUserId := ids.1
  let targetOrgId := ids.2.1
  let targetDeptId := ids.2.2
  let isPlatformAdmin := user.orgId = platformOrgId
  if targetUserId = some user.id then
    some .own
  else if targetOrgId.isSome ∧ targetOrgId ≠ some user.orgId then
    (if isPlatformAdmin then some .crossOrg else none)
  else if targetDeptId.isSome ∧ targetDeptId ≠ some user.deptId then
    some .crossDept
  else if targetDeptId = some user.deptId then
    some .ownDept
  else if targetOrgId = some user.orgId then
    some .ownDept
  else
    none

/-! ## Authorization matrix (authorization.js, AUTHORIZATION_MATRIX) -/

/-- One role's entry of AUTHORIZATION_MATRIX: the four scope permission
lists and the resource → actions table. -/
structure RoleMatrix where
  own : List String
  ownDept : List String
  crossDept : List String
  crossOrg : List String
  resources : String → Option (List String)

/-- SuperAdmin resources table (authorization.js lines 19-28). -/
def superAdminResources (r : String) : Option (List String) :=
  if r = "users" then some ["create", "read", "update", "delete", "restore"]
  else if r = "departments" then some ["create", "read", "update", "delete", "restore"]
  else if r = "organizations" then some ["create", "read", "update", "delete", "restore"]
  else if r = "tasks" then some ["create", "read", "update", "delete", "restore"]
  else if r = "materials" then some ["create", "read", "update", "delete", "restore"]
  else if r = "vendors" then some ["create", "read", "update", "delete", "restore"]
  else if r = "notifications" then some ["read", "update", "delete"]
  else if r = "attachments" then some ["create", "read", "delete"]
  else none

/-- Admin resources table (authorization.js lines 37-46). -/
def adminResources (r : String) : Option (List String) :=
  if r = "users" then some ["create", "read", "update", "delete"]
  else if r = "departments" then some ["read"]
  else if r = "organizations" then some ["read"]
  else if r = "tasks" then some ["create", "read", "update", "delete"]
  else if r = "materials" then some ["create", "read", "update", "delete"]
  else if r = "vendors" then some ["create", "read", "update", "delete"]
  else if r = "notifications" then some ["read", "update", "delete"]
  else if r = "attachments" then some ["create", "read", "delete"]
  else none

/-- Manager resources table (authorization.js lines 55-64). -/
def managerResources (r : String) : Option (List String) :=
  if r = "users" then some ["read", "update"]
  else if r = "departments" then some ["read"]
  else if r = "organizations" then some ["read"]
  else if r = "tasks" then some ["create", "read", "update", "delete"]
  else if r = "materials" then some ["create", "read", "update"]
  else if r = "vendors" then some ["read", "update"]
  else if r = "notifications" then some ["read", "update"]
  else if r = "attachments" then some ["create", "read", "delete"]
  else none

/-- User resources table (authorization.js lines 73-82). -/
def userResources (r : String) : Option (List String) :=
  if r = "users" then some ["read"]
  else if r = "departments" then some ["read"]
  else if r = "organizations" then some ["read"]
  else if r = "tasks" then some ["create", "read", "update"]
  else if r = "materials" then some ["read"]
  else if r = "vendors" then some ["read"]
  else if r = "notifications" then some ["read", "update"]
  else if r = "attachments" then some ["create", "read"]
  else none

/-- AUTHORIZATION_MATRIX (authorization.js lines 12-84), as a lookup by role
name; an unknown role has no entry (the JS property access is undefined). -/
def AUTHORIZATION_MATRIX (role : String) : Option RoleMatrix :=
  if role = "SuperAdmin" then
    some { own := ["read", "write", "delete"], ownDept := ["read", "write", "delete"],
           crossDept := ["read", "write", "delete"], crossOrg := ["read", "write", "delete"],
           resources := superAdminResources }
  else if role = "Admin" then
    some { own := ["read", "write", "delete"], ownDept := ["read", "write", "delete"],
           crossDept := ["read"], crossOrg := [],
           resources := adminResources }
  else if role = "Manager" then
    some { own := ["read", "write", "delete"], ownDept := ["read", "write"],
           crossDept := ["read"], crossOrg := [],
           resources := managerResources }
  else if role = "User" then
    some { own := ["read", "write"], ownDept := ["read"],
           crossDept := [], crossOrg := [],
           resources := userResources }
  else
    none

/-- Scope permission lookup `rolePermissions[scopeLevel]`. -/
def scopePermissions (m : RoleMatrix) (s : ScopeLevel) : List String :=
  match s with
  | .own => m.own
  | .ownDept => m.ownDept
  | .crossDept => m.crossDept
  | .crossOrg => m.crossOrg

/-- actionScopeMap (authorization.js lines 209-215) with the
`actionScopeMap[action] || action` fallback. -/
def actionScopeMap (action : String) : String :=
  if action = "create" then "write"
  else if action = "read" then "read"
  else if action = "update" then "write"
  else if action = "delete" then "delete"
  else if action = "restore" then "write"
  else action

/-- `hasPermission` (authorization.js lines 169-219): resource table check,
optional target scope resolution, then scope permission check. -/
def hasPermission (user : UserCtx) (action : String) (resource : String)
    (targetResource : Option RawResource) (resourceType : Option String) : Bool :=
  match AUTHORIZATION_MATRIX user.role with
  | none => false
  | some rolePermissions =>
    match rolePermissions.resources resource with
    | none => false
    | some resourcePermissions =>
      if action ∉ resourcePermissions then false
      else
        match targetResource with
        | none => true
        | some target =>
          match determineScopeLevel user target (resourceType.getD resource) with
          | none => false
          | some scopeLevel =>
            actionScopeMap action ∈ scopePermissions rolePermissions scopeLevel

/-- The role → scope → bucket table exactly as written in the spec's section 6
table (including SuperAdmin's full row and the dashes as empty sets).
Modelled from the spec for comparison with AUTHORIZATION_MATRIX. -/
def specScopeMatrix (role : String) (s : ScopeLevel) : Option (List String) :=
  if role = "SuperAdmin" then
    some ["read", "write", "delete"]
  else if role = "Admin" then
    some (match s with
          | .own => ["read", "write", "delete"]
          | .ownDept => ["read", "write", "delete"]
          | .crossDept => ["read"]
          | .crossOrg => [])
  else if role = "Manager" then
    some (match s with
          | .own => ["read", "write", "delete"]
          | .ownDept => ["read", "write"]
          | .crossDept => ["read"]
          | .crossOrg => [])
  else if role = "User" then
    some (match s with
          | .own => ["read", "write"]
          | .ownDept => ["read"]
          | .crossDept => []
          | .crossOrg => [])
  else
    none

/-- The four role names that AUTHORIZATION_MATRIX recognizes. -/
def recognizedRoles : List String := ["SuperAdmin", "Admin", "Manager", "User"]

/-! ## Tombstone fields and lifecycle operations
(backend/models/plugins/softDelete.js) -/

/-- The three tombstone fields added by the plugin (softDelete.js lines 21-41).
Timestamps are modelled as natural numbers. -/
structure TombDoc where
  isDeleted : Bool
  deletedAt : Option Nat
  deletedBy : Option Nat
deriving DecidableEq, Repr

/-- A freshly created entity: active, no tombstone data (field defaults). -/
def freshDoc : TombDoc := ⟨false, none, none⟩

/-- The pre-save hook (softDelete.js lines 46-56): when `isDeleted` was
modified, stamp `deletedAt` if turning deleted without a stamp, or clear
`deletedAt`/`deletedBy` if turning active. -/
def preSaveHook (now : Nat) (modifiedIsDeleted : Bool) (d : TombDoc) : TombDoc :=
  if modifiedIsDeleted then
    if d.isDeleted ∧ d.deletedAt = none then
      { d with deletedAt := some now }
    else if d.isDeleted = false then
      { d with deletedAt := none, deletedBy := none }
    else d
  else d

/-- Instance method `softDelete(deletedBy?)` (softDelete.js lines 180-192):
sets `isDeleted`, stamps `deletedAt` unconditionally, sets `deletedBy` only
when an actor argument is given, then saves (running the pre-save hook;
`isDeleted` counts as modified only when its value actually changed). -/
def softDeleteInstance (deletedBy : Option Nat) (now : Nat) (d : TombDoc) : TombDoc :=
  let assigned : TombDoc :=
    { isDeleted := true, deletedAt := some now,
      deletedBy := match deletedBy with
                   | some actor => some actor
                   | none => d.deletedBy }
  preSaveHook now (d.isDeleted ≠ true) assigned

/-- Instance method `restore()` (softDelete.js lines 194-200): clears all
three tombstone fields, then saves. -/
def restoreInstance (now : Nat) (d : TombDoc) : TombDoc :=
  let assigned : TombDoc := ⟨false, none, none⟩
  preSaveHook now (d.isDeleted ≠ false) assigned

/-- Static `softDeleteById` (softDelete.js lines 204-220), as a transformer of
the addressed document: `findOneAndUpdate({_id, isDeleted: false}, ...)`
updates only a currently-active document; `deletedBy` is written only when
provided in the options. -/
def softDeleteById (deletedBy : Option Nat) (now : Nat) (d : TombDoc) : TombDoc :=
  if d.isDeleted = false then
    { d with
      isDeleted := true
      deletedAt := some now
      deletedBy := (match deletedBy with
                    | some actor => some actor
                    | none => d.deletedBy) }
  else d

/-- Static `softDeleteMany` (softDelete.js lines 222-237), per document:
`updateMany({...filter, isDeleted: false}, ...)`; `hit` records whether the
document matches the caller's filter. -/
def softDeleteManyDoc (hit : Bool) (deletedBy : Option Nat) (now : Nat) (d : TombDoc) : TombDoc :=
  if hit ∧ d.isDeleted = false then
    { d with
      isDeleted := true
      deletedAt := some now
      deletedBy := (match deletedBy with
                    | some actor => some actor
                    | none => d.deletedBy) }
  else d

/-- Static `restoreById` (softDelete.js lines 239-251), per document:
`findOneAndUpdate({_id, isDeleted: true}, {false, null, null})`. -/
def restoreById (d : TombDoc) : TombDoc :=
  if d.isDeleted = true then ⟨false, none, none⟩ else d

/-- Static `restoreMany` (softDelete.js lines 253-265), per document. -/
def restoreManyDoc (hit : Bool) (d : TombDoc) : TombDoc :=
  if hit ∧ d.isDeleted = true then ⟨false, none, none⟩ else d

/-- Direct flag assignment followed by `.save()`: the flow the pre-save hook
exists for (`doc.isDeleted = b; doc.save()`). -/
def setDeletedFlagAndSave (b : Bool) (now : Nat) (d : TombDoc) : TombDoc :=
  preSaveHook now (d.isDeleted ≠ b) { d with isDeleted := b }

/-- One lifecycle operation on a document, covering the instance methods,
the update-based statics (with the document either hit or missed by the
caller's filter) and the plain flag-and-save flow. -/
inductive TombOp where
  | instSoftDelete (actor : Option Nat) (now : Nat)
  | instRestore (now : Nat)
  | byIdSoftDelete (actor : Option Nat) (now : Nat)
  | byIdRestore
  | manySoftDelete (hit : Bool) (actor : Option Nat) (now : Nat)
  | manyRestore (hit : Bool)
  | saveFlag (b : Bool) (now : Nat)
deriving DecidableEq, Repr

/-- Apply one lifecycle operation. -/
def applyTombOp (d : TombDoc) : TombOp → TombDoc
  | .instSoftDelete actor now => softDeleteInstance actor now d
  | .instRestore now => restoreInstance now d
  | .byIdSoftDelete actor now => softDeleteById actor now d
  | .byIdRestore => restoreById d
  | .manySoftDelete hit actor now => softDeleteManyDoc hit actor now d
  | .manyRestore hit => restoreManyDoc hit d
  | .saveFlag b now => setDeletedFlagAndSave b now d

/-- Run a sequence of lifecycle operations from the freshly created state. -/
def runTombOps (ops : List TombOp) : TombDoc :=
  ops.foldl applyTombOp freshDoc

/-- The spec's three-way tombstone invariant:
`isDeleted=false ⟺ deletedAt=null ⟺ deletedBy=null`. -/
def tombstoneInvariant (d : TombDoc) : Prop :=
  (d.isDeleted = false ↔ d.deletedAt = none) ∧ (d.deletedAt = none ↔ d.deletedBy = none)

instance (d : TombDoc) : Decidable (tombstoneInvariant d) := by
  unfold tombstoneInvariant; infer_instance

/-- The invariant the code actually maintains: `isDeleted` and `deletedAt`
agree, and an active document never carries a `deletedBy`; a tombstoned
document may or may not carry one (no actor argument leaves it null). -/
def tombstoneInvariantWeak (d : TombDoc) : Prop :=
  (d.isDeleted = false ↔ d.deletedAt = none) ∧ (d.isDeleted = false → d.deletedBy = none)

instance (d : TombDoc) : Decidable (tombstoneInvariantWeak d) := by
  unfold tombstoneInvariantWeak; infer_instance

/-! ## Default-exclusion query rewriting (softDelete.js lines 87-147) -/

/-- Query options relevant to the plugin (the include-deleted flag set by the
`withDeleted` query helper). -/
structure QueryOptions where
  withDeleted : Bool := false
deriving DecidableEq, Repr

/-- A query filter split into its explicit `isDeleted` clause (if any) and the
remainder of the filter, as a predicate on documents. -/
structure MongoQuery where
  isDeletedCond : Option Bool := none
  pred : TombDoc → Bool

/-- `excludeDeleted` (softDelete.js lines 87-97): skip when the options carry
the include-deleted flag or the filter already has an `isDeleted` clause;
otherwise add `isDeleted: false`. -/
def excludeDeleted (q : MongoQuery) (opts : QueryOptions) : MongoQuery :=
  if opts.withDeleted = true ∨ q.isDeletedCond ≠ none then q
  else { q with isDeletedCond := some false }

/-- Whether a document matches a query filter. -/
def queryMatches (q : MongoQuery) (d : TombDoc) : Bool :=
  (match q.isDeletedCond with
   | none => true
   | some b => d.isDeleted == b) && q.pred d

/-- The query methods the plugin hooks `excludeDeleted` onto
(softDelete.js lines 100-114). -/
def queryMiddleware : List String :=
  ["find", "findOne", "findOneAndUpdate", "findOneAndReplace",
   "count", "countDocuments", "distinct", "updateOne", "updateMany"]

/-- Aggregation-pipeline stages, keeping the structure the plugin inspects:
`$match` stages carry their optional `isDeleted` condition, `$lookup` stages
carry a sub-pipeline, everything else is opaque. -/
inductive AggStage where
  | matchStage (isDeletedCond : Option Bool)
  | lookupStage (sub : List AggStage)
  | otherStage
deriving Repr

/-- Detection used by the pre-aggregate hook (softDelete.js lines 127-140):
a top-level `$match` on `isDeleted`, or such a `$match` one level inside a
`$lookup` sub-pipeline. -/
def stageHasDeletedFilter : AggStage → Bool
  | .matchStage c => c.isSome
  | .lookupStage sub =>
      sub.any fun s =>
        match s with
        | .matchStage c => c.isSome
        | _ => false
  | .otherStage => false

/-- `hasDeletedFilter` over the whole pipeline (softDelete.js line 127). -/
def hasDeletedFilter (p : List AggStage) : Bool :=
  p.any stageHasDeletedFilter

/-- The pre-aggregate hook (softDelete.js lines 117-147): skip on the
include-deleted flag, otherwise prepend `{ $match: { isDeleted: false } }`
when no filter was detected. -/
def preAggregate (opts : QueryOptions) (p : List AggStage) : List AggStage :=
  if opts.withDeleted = true then p
  else if hasDeletedFilter p then p
  else .matchStage (some false) :: p

/-- Whether any stage of the pipeline, at any depth of nesting inside
`$lookup` sub-pipelines, filters on `isDeleted`. This is the claim's
"filters on isDeleted at any stage (including inside sub-pipelines)". -/
def pipelineFiltersDeep : List AggStage → Bool
  | [] => false
  | .matchStage c :: rest => c.isSome || pipelineFiltersDeep rest
  | .lookupStage sub :: rest => pipelineFiltersDeep sub || pipelineFiltersDeep rest
  | .otherStage :: rest => pipelineFiltersDeep rest

/-! ## Cascade propagation (softDelete.js executeCascadeDelete and the
per-model cascadeDelete configurations) -/

/-- A cascade edge as the plugin reads it: target model name, foreign-key
field, `propagateDeletedBy`, and the recursive `cascade` flag. The source
configurations write a key `deletedBy: true`, which the plugin never reads,
and set neither `propagateDeletedBy` nor `cascade`, so both are false
(undefined) on every declared edge. -/
structure CascadeEdge where
  model : String
  field : String
  propagateDeletedBy : Bool
  cascade : Bool
deriving DecidableEq, Repr

/-- Organization cascade configuration (Organization.js plugin options). -/
def organizationCascade : List CascadeEdge :=
  [⟨"Department", "organization", false, false⟩,
   ⟨"User", "organization", false, false⟩,
   ⟨"BaseTask", "organization", false, false⟩,
   ⟨"Material", "organization", false, false⟩,
   ⟨"Vendor", "organization", false, false⟩,
   ⟨"Notification", "organization", false, false⟩]

/-- Department cascade configuration (Department.js plugin options). -/
def departmentCascade : List CascadeEdge :=
  [⟨"User", "department", false, false⟩,
   ⟨"BaseTask", "department", false, false⟩]

/-- BaseTask cascade configuration (BaseTask.js plugin options). -/
def baseTaskCascade : List CascadeEdge :=
  [⟨"TaskActivity", "task", false, false⟩,
   ⟨"TaskComment", "task", false, false⟩,
   ⟨"Attachment", "attachedTo", false, false⟩]

/-- TaskActivity cascade configuration (TaskActivity.js plugin options). -/
def taskActivityCascade : List CascadeEdge :=
  [⟨"Attachment", "attachedTo", false, false⟩]

/-- TaskComment cascade configuration (TaskComment.js plugin options). -/
def taskCommentCascade : List CascadeEdge :=
  [⟨"TaskComment", "parentComment", false, false⟩,
   ⟨"Attachment", "attachedTo", false, false⟩]

/-- The cascade table per entity kind; User, Material, Vendor, Notification
and Attachment apply the plugin with no cascade option. -/
def cascadeConfigOf (kind : String) : List CascadeEdge :=
  if kind = "Organization" then organizationCascade
  else if kind = "Department" then departmentCascade
  else if kind = "BaseTask" then baseTaskCascade
  else if kind = "TaskActivity" then taskActivityCascade
  else if kind = "TaskComment" then taskCommentCascade
  else []

/-- A stored entity: kind (model name), id, the reference fields cascade
edges can address, and the tombstone fields. Absent references are `none`. -/
structure Entity where
  id : Nat
  kind : String
  organization : Option Nat := none
  department : Option Nat := none
  task : Option Nat := none
  attachedTo : Option Nat := none
  parentComment : Option Nat := none
  isDeleted : Bool := false
  deletedAt : Option Nat := none
  deletedBy : Option Nat := none
deriving DecidableEq, Repr

/-- Reference-field lookup by the cascade edge's field name. -/
def fieldValue (e : Entity) (f : String) : Option Nat :=
  if f = "organization" then e.organization
  else if f = "department" then e.department
  else if f = "task" then e.task
  else if f = "attachedTo" then e.attachedTo
  else if f = "parentComment" then e.parentComment
  else none

/-- Whether an entity is hit by one cascade `updateMany`: right model, foreign
key equal to the parent id, and currently active (the plugin's query
middleware adds `isDeleted: false` to the cascade's updateMany filter). -/
def cascadeHits (parent : Entity) (edge : CascadeEdge) (e : Entity) : Prop :=
  e.kind = edge.model ∧ fieldValue e edge.field = some parent.id ∧ e.isDeleted = false

instance (parent : Entity) (edge : CascadeEdge) (e : Entity) :
    Decidable (cascadeHits parent edge e) := by
  unfold cascadeHits; infer_instance

/-- The per-entity effect of one cascade `updateMany` (softDelete.js lines
334-345): tombstone hits, propagating the parent's `deletedBy` only when the
edge sets `propagateDeletedBy`. -/
def tombstoneByCascade (now : Nat) (parent : Entity) (edge : CascadeEdge) (e : Entity) : Entity :=
  if cascadeHits parent edge e then
    { e with
      isDeleted := true
      deletedAt := some now
      deletedBy := if edge.propagateDeletedBy then parent.deletedBy else e.deletedBy }
  else e

/-- `executeCascadeDelete` (softDelete.js lines 330-362): for each declared
edge, updateMany over the matching active documents; when the edge sets the
recursive `cascade` flag, re-query the matching documents (the default filter
again excludes deleted ones — and therefore excludes the documents the
updateMany just tombstoned) and recurse into each. `fuel` bounds the
recursion depth of the embedding. -/
def executeCascadeDelete (fuel : Nat) (now : Nat) (parent : Entity)
    (w : List Entity) : List Entity :=
  match fuel with
  | 0 => w
  | Nat.succ f =>
    (cascadeConfigOf parent.kind).foldl
      (fun wAcc edge =>
        let w2 := wAcc.map (tombstoneByCascade now parent edge)
        if edge.cascade then
          (w2.filter (fun e => decide (cascadeHits parent edge e))).foldl
            (fun w3 child => executeCascadeDelete f now child w3) w2
        else w2)
      w

/-- The full tenant tombstone flow used by the delete controllers: the
instance `softDelete(actorId)` writes the parent's tombstone fields and
`.save()` fires the cascade pre-save hook (softDelete.js lines 60-64), which
runs `executeCascadeDelete` when `isDeleted` transitioned to true and the
schema declared cascade edges. -/
def softDeleteEntity (actor : Option Nat) (now : Nat) (target : Entity)
    (w : List Entity) : List Entity :=
  let parent : Entity :=
    { target with
      isDeleted := true
      deletedAt := some now
      deletedBy := (match actor with
                    | some a => some a
                    | none => target.deletedBy) }
  let w1 := w.map (fun e => if e.id = target.id ∧ e.kind = target.kind then parent else e)
  if target.isDeleted = false ∧ cascadeConfigOf target.kind ≠ [] then
    executeCascadeDelete (w1.length + 1) now parent w1
  else w1

/-- The six kinds reachable from an Organization along its declared cascade
edges (all via the `organization` foreign key). -/
def directOrgCascadeKinds : List String :=
  ["Department", "User", "BaseTask", "Material", "Vendor", "Notification"]

/-- The per-entity result of tombstoning an Organization `o`: the organization
record itself is tombstoned, every active entity of the six directly-declared
kinds referencing it is tombstoned (without `deletedBy`), and every other
entity — including a task's TaskActivity / TaskComment / Attachment children —
is left unchanged. -/
def orgCascadeResult (actor : Option Nat) (now : Nat) (o : Entity) (e : Entity) : Entity :=
  let parent : Entity :=
    { o with
      isDeleted := true
      deletedAt := some now
      deletedBy := (match actor with
                    | some a => some a
                    | none => o.deletedBy) }
  if e.id = o.id ∧ e.kind = o.kind then parent
  else if e.kind ∈ directOrgCascadeKinds ∧ e.organization = some o.id ∧ e.isDeleted = false then
    { e with
      isDeleted := true
      deletedAt := some now }
  else e

/-! ## authenticate (backend/middleware/auth.js lines 21-101) -/

/-- A stored user document with the fields authenticate consults. -/
structure AuthUserDoc where
  id : Nat
  email : String
  organization : Nat
  department : Nat
  role : String
  isDeleted : Bool
deriving DecidableEq, Repr

/-- A stored organization document (as authenticate sees it). -/
structure OrgDoc where
  id : Nat
  isDeleted : Bool
deriving DecidableEq, Repr

/-- A stored department document (as authenticate sees it). -/
structure DeptDoc where
  id : Nat
  isDeleted : Bool
deriving DecidableEq, Repr

/-- The collections authenticate queries. -/
structure AuthDB where
  users : List AuthUserDoc
  orgs : List OrgDoc
  depts : List DeptDoc

/-- The payload of a verified access token. -/
structure DecodedToken where
  userId : Nat
  email : String
  organizationId : Nat
  departmentId : Nat
  role : String
deriving DecidableEq, Repr

/-- A CustomError as the API surfaces it: HTTP status code and message
(CustomError.unauthorized carries 401, notFound 404, conflict 409, ...). -/
structure ApiError where
  statusCode : Nat
  message : String
deriving DecidableEq, Repr

/-- A populated organization / department reference as authenticate actually
receives it: `.populate("organization", "name _id")` projects only `name`
and `_id`, so the populated document carries no tombstone fields (they are
`select: false` and never requested). Only `_id` is consulted downstream. -/
structure PopulatedRef where
  id : Nat
deriving DecidableEq, Repr

/-- The JS read `user.organization?.isDeleted` / `user.department?.isDeleted`
(auth.js lines 49, 54): the populate projection is `"name _id"` and the
tombstone fields are `select: false`, so `isDeleted` is never loaded and the
read is always `undefined`, i.e. falsy — whether the populate produced a
document or null. -/
def populatedIsDeleted (_ref : Option PopulatedRef) : Bool := false

/-- `authenticate` (auth.js lines 21-101). The request's verified token is
`none` when no valid session exists. `User.findById` is a findOne and runs
the soft-delete plugin's `excludeDeleted` middleware, so the lookup itself
filters on `isDeleted: false`; the subsequent `user.isDeleted` check is kept
verbatim (it can only see false). The organization / department populate
issues a find on the referenced model, which runs the same `excludeDeleted`
middleware — a tombstoned reference populates as null — and projects
`"name _id"`, so the two deactivation checks read an unselected field
(`populatedIsDeleted`, constantly false) and cannot fire. The token-match
condition (auth.js lines 59-63) is a `||` evaluated left to right: the email
comparison first, then `user.organization._id.toString()` — a TypeError on a
null populate, caught by the handler and wrapped as the generic 401 — then
the same for the department. -/
def authenticate (token : Option DecodedToken) (db : AuthDB) :
    Except ApiError AuthUserDoc :=
  match token with
  | none => .error ⟨401, "Authentication required. Please log in."⟩
  | some decoded =>
    match db.users.find? (fun u => u.id == decoded.userId && !u.isDeleted) with
    | none => .error ⟨401, "User not found. Please log in again."⟩
    | some user =>
      let orgDoc : Option PopulatedRef :=
        (db.orgs.find? (fun o => o.id == user.organization && !o.isDeleted)).map
          (fun o => ⟨o.id⟩)
      let deptDoc : Option PopulatedRef :=
        (db.depts.find? (fun d => d.id == user.department && !d.isDeleted)).map
          (fun d => ⟨d.id⟩)
      if user.isDeleted then
        .error ⟨401, "User account is deactivated."⟩
      else if populatedIsDeleted orgDoc then
        .error ⟨401, "Organization is deactivated."⟩
      else if populatedIsDeleted deptDoc then
        .error ⟨401, "Department is deactivated."⟩
      else if decoded.email ≠ user.email then
        .error ⟨401, "Token data mismatch. Please log in again."⟩
      else
        match orgDoc with
        | none => .error ⟨401, "Authentication failed. Please log in again."⟩
        | some org =>
          if decoded.organizationId ≠ org.id then
            .error ⟨401, "Token data mismatch. Please log in again."⟩
          else
            match deptDoc with
            | none => .error ⟨401, "Authentication failed. Please log in again."⟩
            | some dept =>
              if decoded.departmentId ≠ dept.id then
                .error ⟨401, "Token data mismatch. Please log in again."⟩
              else .ok user

/-- Whether an authenticate result carries one of the deactivated-account
messages of auth.js lines 45, 50, 55. -/
def isDeactivatedMessage (r : Except ApiError AuthUserDoc) : Bool :=
  match r with
  | .error e =>
      e.message == "User account is deactivated." ||
      e.message == "Organization is deactivated." ||
      e.message == "Department is deactivated."
  | .ok _ => false

/-! ## restoreOrganization (organizationController.js lines 413-484) -/

/-- An organization record with the fields restoreOrganization consults. -/
structure OrgRecord where
  id : Nat
  name : String
  email : String
  isDeleted : Bool
  deletedAt : Option Nat
  deletedBy : Option Nat
deriving DecidableEq, Repr

/-- `restoreOrganization`: platform guard, `Organization.findById` (a findOne,
so the plugin's `excludeDeleted` middleware adds `isDeleted: false` to the
lookup), the not-found / not-deleted guards, the two conflict checks against
active records (their queries carry an explicit `isDeleted: {$ne: true}`
clause), then `organization.restore()`. Returns the updated collection on
success. -/
def restoreOrganization (orgId : Nat) (db : List OrgRecord) :
    Except ApiError (List OrgRecord) :=
  if orgId = platformOrgId then
    .error ⟨403, "Cannot restore platform organization."⟩
  else
    match db.find? (fun o => o.id == orgId && !o.isDeleted) with
    | none => .error ⟨404, "Organization not found."⟩
    | some org =>
      if org.isDeleted = false then
        .error ⟨400, "Organization is not deleted."⟩
      else if db.any (fun o => o.name == org.name && o.id != org.id && !o.isDeleted) then
        .error ⟨409, "Cannot restore organization. Name conflicts with existing organization."⟩
      else if db.any (fun o => o.email == org.email && o.id != org.id && !o.isDeleted) then
        .error ⟨409, "Cannot restore organization. Email conflicts with existing organization."⟩
      else
        .ok (db.map (fun o =>
          if o.id == org.id then
            { o with
              isDeleted := false
              deletedAt := none
              deletedBy := none }
          else o))

/-! ## Department unique index (Department.js line 45) -/

/-- A department record with the unique-index key fields. -/
structure DeptRecord where
  id : Nat
  name : String
  organization : Nat
  isDeleted : Bool
deriving DecidableEq, Repr

/-- The compound unique-index key of
`departmentSchema.index({ name: 1, organization: 1 }, { unique: true })`. -/
def deptUniqueKey (d : DeptRecord) : String × Nat :=
  (d.name, d.organization)

/-- The index declaration carries no tombstone exclusion: the source passes
only `{ unique: true }`, no partialFilterExpression restricting the index to
active documents. -/
def deptIndexTombstoneExclusion : Option (DeptRecord → Bool) := none

/-- Standard unique-index insert admission: the insert of `newDoc` is allowed
iff no stored document covered by the index (all of them when the index has
no filter expression) shares its key. -/
def uniqueIndexAllowsInsert (key : DeptRecord → String × Nat)
    (exclusion : Option (DeptRecord → Bool)) (db : List DeptRecord)
    (newDoc : DeptRecord) : Bool :=
  !(db.any fun e =>
    (match exclusion with
     | none => true
     | some keep => keep e && keep newDoc) && decide (key e = key newDoc))

/-- Whether a controller result is a rejection. -/
def restoreResultIsError (r : Except ApiError (List OrgRecord)) : Bool :=
  match r with
  | .error _ => true
  | .ok _ => false

/-- The per-entity effect of the six direct Organization cascade edges: an
active entity of a directly-declared kind referencing the organization is
tombstoned (its `deletedBy` untouched, since no edge propagates it);
everything else is unchanged. -/
def orgDirectStep (now : Nat) (parent : Entity) (e : Entity) : Entity :=
  if e.kind ∈ directOrgCascadeKinds ∧ e.organization = some parent.id ∧ e.isDeleted = false then
    { e with
      isDeleted := true
      deletedAt := some now }
  else e

/-- Entity-level application of a list of cascade edges in order. -/
def applyEdges (now : Nat) (parent : Entity) (edges : List CascadeEdge) (e : Entity) : Entity :=
  edges.foldl (fun x edge => tombstoneByCascade now parent edge x) e

/-! ## Helper lemmas -/

/-- A role outside the four configured ones has no AUTHORIZATION_MATRIX entry. -/
theorem matrix_lookup_none_of_unrecognized (role : String)
    (h : role ∉ recognizedRoles) : AUTHORIZATION_MATRIX role = none := by
  simp only [recognizedRoles, List.mem_cons, List.mem_singleton, not_or] at h
  obtain ⟨h1, h2, h3, h4⟩ := h
  simp [AUTHORIZATION_MATRIX, h1, h2, h3, h4]

/-! ## Claim theorems -/

/-- C5: the role-by-scope permission matrix embedded from
AUTHORIZATION_MATRIX coincides with the spec section 6 table for every
recognized role at every scope level. -/
theorem C5_scope_matrix_matches_spec :
    ∀ role ∈ recognizedRoles, ∀ s : ScopeLevel,
      (AUTHORIZATION_MATRIX role).map (fun m => scopePermissions m s) =
        specScopeMatrix role s := by
  intro role hrole s
  simp only [recognizedRoles, List.mem_cons, List.not_mem_nil, or_false] at hrole
  rcases hrole with rfl | rfl | rfl | rfl <;> cases s <;> rfl

/-- Witness for C5 at the Manager / ownDept entry. -/
theorem C5_scope_matrix_matches_spec_witness :
    ("Manager" ∈ recognizedRoles) ∧
    (AUTHORIZATION_MATRIX "Manager").map (fun m => scopePermissions m .ownDept) =
      specScopeMatrix "Manager" .ownDept :=
  ⟨by decide, C5_scope_matrix_matches_spec "Manager" (by decide) .ownDept⟩

/-- C6: for an actor whose role is not one of SuperAdmin / Admin / Manager /
User, `hasPermission` returns false for every action, resource, target and
resource type (fail closed). -/
theorem C6_unrecognized_role_fails_closed :
    ∀ (u : UserCtx), u.role ∉ recognizedRoles →
      ∀ (action resource : String) (target : Option RawResource) (rt : Option String),
        hasPermission u action resource target rt = false := by
  intro u h action resource target rt
  unfold hasPermission
  rw [matrix_lookup_none_of_unrecognized u.role h]

/-- Witness for C6 at a concrete unrecognized role. -/
theorem C6_unrecognized_role_fails_closed_witness :
    ((⟨1, 2, 3, "Ghost"⟩ : UserCtx).role ∉ recognizedRoles) ∧
    hasPermission ⟨1, 2, 3, "Ghost"⟩ "read" "tasks" none none = false :=
  ⟨by decide,
   C6_unrecognized_role_fails_closed ⟨1, 2, 3, "Ghost"⟩ (by decide) "read" "tasks" none none⟩

/-- C10 (implicit): the Department (name, organization) unique index declares
no tombstone exclusion, so inserting an active department whose name matches
a tombstoned department of the same organization is rejected. -/
theorem C10_unique_index_spans_tombstones :
    deptIndexTombstoneExclusion = none ∧
    ∀ (db : List DeptRecord) (tomb newDept : DeptRecord),
      tomb ∈ db → tomb.isDeleted = true → newDept.isDeleted = false →
      tomb.name = newDept.name → tomb.organization = newDept.organization →
      uniqueIndexAllowsInsert deptUniqueKey deptIndexTombstoneExclusion db newDept = false := by
  refine ⟨rfl, ?_⟩
  intro db tomb newDept hmem _ _ hn ho
  have hp : (db.any fun e =>
      (match deptIndexTombstoneExclusion with
       | none => true
       | some keep => keep e && keep newDept) &&
        decide (deptUniqueKey e = deptUniqueKey newDept)) = true := by
    refine List.any_eq_true.2 ⟨tomb, hmem, ?_⟩
    simp [deptIndexTombstoneExclusion, deptUniqueKey, hn, ho]
  simp only [uniqueIndexAllowsInsert, hp, Bool.not_true]

/-- Witness for C10: a tombstoned "Engineering" department of organization 7
blocks creating an active "Engineering" department in the same organization. -/
theorem C10_unique_index_spans_tombstones_witness :
    ((⟨1, "Engineering", 7, true⟩ : DeptRecord) ∈
      [(⟨1, "Engineering", 7, true⟩ : DeptRecord)]) ∧
    uniqueIndexAllowsInsert deptUniqueKey deptIndexTombstoneExclusion
      [⟨1, "Engineering", 7, true⟩] ⟨2, "Engineering", 7, false⟩ = false :=
  ⟨by decide,
   C10_unique_index_spans_tombstones.2 [⟨1, "Engineering", 7, true⟩]
     ⟨1, "Engineering", 7, true⟩ ⟨2, "Engineering", 7, false⟩ (by decide) rfl rfl rfl rfl⟩

/-- C3 counterexample: soft-deleting a fresh entity through the instance
method without a deletedBy actor yields `isDeleted = true`, `deletedAt`
stamped, but `deletedBy = null`, violating the claimed three-way
equivalence. -/
theorem C3_three_way_invariant_counterexample :
    ¬ tombstoneInvariant (runTombOps [.instSoftDelete none 5]) := by decide

/-- A single lifecycle operation preserves the weak tombstone invariant. -/
theorem weak_invariant_preserved (d : TombDoc) (op : TombOp)
    (h : tombstoneInvariantWeak d) : tombstoneInvariantWeak (applyTombOp d op) := by
  obtain ⟨h1, h2⟩ := h
  cases op with
  | instSoftDelete actor now =>
    cases actor <;>
      simp [applyTombOp, softDeleteInstance, preSaveHook, tombstoneInvariantWeak]
  | instRestore now =>
    simp [applyTombOp, restoreInstance, preSaveHook, tombstoneInvariantWeak]
  | byIdSoftDelete actor now =>
    rcases hb : d.isDeleted with _ | _ <;> cases actor <;>
      simp_all [applyTombOp, softDeleteById, tombstoneInvariantWeak]
  | byIdRestore =>
    rcases hb : d.isDeleted with _ | _ <;>
      simp_all [applyTombOp, restoreById, tombstoneInvariantWeak]
  | manySoftDelete hit actor now =>
    rcases hb : d.isDeleted with _ | _ <;> cases hit <;> cases actor <;>
      simp_all [applyTombOp, softDeleteManyDoc, tombstoneInvariantWeak]
  | manyRestore hit =>
    rcases hb : d.isDeleted with _ | _ <;> cases hit <;>
      simp_all [applyTombOp, restoreManyDoc, tombstoneInvariantWeak]
  | saveFlag b now =>
    rcases hb : d.isDeleted with _ | _ <;> cases b <;>
      simp_all [applyTombOp, setDeletedFlagAndSave, preSaveHook, tombstoneInvariantWeak]

/-- The weak invariant propagates through any foldl of lifecycle operations. -/
theorem weak_invariant_foldl (ops : List TombOp) :
    ∀ (d : TombDoc), tombstoneInvariantWeak d →
      tombstoneInvariantWeak (ops.foldl applyTombOp d) := by
  induction ops with
  | nil => intro d h; exact h
  | cons op rest ih =>
    intro d h
    exact ih (applyTombOp d op) (weak_invariant_preserved d op h)

/-- C3 (amended): after any sequence of softDelete / restore operations —
instance methods, update-based statics, or direct flag saves, with or without
a deletedBy actor — a document satisfies `isDeleted=false ⟺ deletedAt=null`
and, when active, `deletedBy=null`; a tombstoned document may carry a null
`deletedBy` (no actor supplied), so only this weakening of the spec's
three-way equivalence holds. -/
theorem C3_weak_tombstone_invariant (ops : List TombOp) :
    tombstoneInvariantWeak (runTombOps ops) :=
  weak_invariant_foldl ops freshDoc (by decide)

/-- C9 counterexample: calling the instance softDelete on an
already-tombstoned document does not fail and re-stamps `deletedAt` (from 5
to 7), contradicting the claimed AlreadyDeleted guard. -/
theorem C9_already_deleted_counterexample :
    (softDeleteInstance (some 9) 7 ⟨true, some 5, some 9⟩).deletedAt = some 7 ∧
    softDeleteInstance (some 9) 7 ⟨true, some 5, some 9⟩ ≠ ⟨true, some 5, some 9⟩ := by
  decide

/-- C9 (amended): the instance softDelete has no AlreadyDeleted guard — on an
already-tombstoned document it succeeds and re-stamps `deletedAt` to the new
time — while the update-based flows (softDeleteById / softDeleteMany filter
on `isDeleted: false`) leave an already-deleted document untouched (no-op). -/
theorem C9_no_already_deleted_guard :
    (∀ (d : TombDoc) (actor : Option Nat) (now : Nat), d.isDeleted = true →
        (softDeleteInstance actor now d).deletedAt = some now ∧
        (softDeleteInstance actor now d).isDeleted = true) ∧
    (∀ (d : TombDoc) (actor : Option Nat) (now : Nat), d.isDeleted = true →
        softDeleteById actor now d = d) ∧
    (∀ (d : TombDoc) (hit : Bool) (actor : Option Nat) (now : Nat), d.isDeleted = true →
        softDeleteManyDoc hit actor now d = d) := by
  refine ⟨?_, ?_, ?_⟩
  · intro d actor now h
    cases actor <;> simp [softDeleteInstance, preSaveHook, h]
  · intro d actor now h
    simp [softDeleteById, h]
  · intro d hit actor now h
    simp [softDeleteManyDoc, h]

/-- Witness for C9 (amended) at a concrete tombstoned document. -/
theorem C9_no_already_deleted_guard_witness :
    ((⟨true, some 5, none⟩ : TombDoc).isDeleted = true) ∧
    (softDeleteInstance (some 2) 7 ⟨true, some 5, none⟩).deletedAt = some 7 ∧
    softDeleteById (some 2) 7 ⟨true, some 5, none⟩ = ⟨true, some 5, none⟩ ∧
    softDeleteManyDoc true (some 2) 7 ⟨true, some 5, none⟩ = ⟨true, some 5, none⟩ :=
  ⟨rfl,
   (C9_no_already_deleted_guard.1 ⟨true, some 5, none⟩ (some 2) 7 rfl).1,
   C9_no_already_deleted_guard.2.1 ⟨true, some 5, none⟩ (some 2) 7 rfl,
   C9_no_already_deleted_guard.2.2 ⟨true, some 5, none⟩ true (some 2) 7 rfl⟩

/-- A pipeline with no isDeleted filter at any depth has no top-level
`$match` on isDeleted. -/
theorem topLevel_match_false_of_deep (p : List AggStage)
    (h : pipelineFiltersDeep p = false) :
    (p.any fun s =>
      match s with
      | .matchStage c => c.isSome
      | _ => false) = false := by
  induction p with
  | nil => rfl
  | cons s rest ih =>
    cases s with
    | matchStage c =>
      simp only [pipelineFiltersDeep, Bool.or_eq_false_iff] at h
      simp [List.any_cons, h.1, ih h.2]
    | lookupStage sub =>
      simp only [pipelineFiltersDeep, Bool.or_eq_false_iff] at h
      simp [List.any_cons, ih h.2]
    | otherStage =>
      simp only [pipelineFiltersDeep] at h
      simp [List.any_cons, ih h]

/-- A pipeline with no isDeleted filter at any depth is not detected by the
plugin's shallow `hasDeletedFilter` scan. -/
theorem hasDeletedFilter_false_of_deep (p : List AggStage)
    (h : pipelineFiltersDeep p = false) : hasDeletedFilter p = false := by
  induction p with
  | nil => rfl
  | cons s rest ih =>
    cases s with
    | matchStage c =>
      have h' : c.isSome = false ∧ pipelineFiltersDeep rest = false := by
        simpa only [pipelineFiltersDeep, Bool.or_eq_false_iff] using h
      simp only [hasDeletedFilter, List.any_cons, Bool.or_eq_false_iff]
      exact ⟨h'.1, ih h'.2⟩
    | lookupStage sub =>
      have h' : pipelineFiltersDeep sub = false ∧ pipelineFiltersDeep rest = false := by
        simpa only [pipelineFiltersDeep, Bool.or_eq_false_iff] using h
      simp only [hasDeletedFilter, List.any_cons, Bool.or_eq_false_iff]
      exact ⟨topLevel_match_false_of_deep sub h'.1, ih h'.2⟩
    | otherStage =>
      have h' : pipelineFiltersDeep rest = false := by
        simpa only [pipelineFiltersDeep] using h
      simp only [hasDeletedFilter, List.any_cons, Bool.or_eq_false_iff]
      exact ⟨rfl, ih h'⟩

/-- C2: default tombstone exclusion. (a) A query with no explicit isDeleted
clause and no include-deleted flag gets `isDeleted: false` added, so only
non-deleted documents match; (b) with the withDeleted flag the query is left
untouched and matches deleted and non-deleted documents alike per the rest of
the filter; (c) the rewriting is installed on all the claimed query methods;
(d) an aggregation pipeline that does not filter on isDeleted at any stage,
including inside sub-pipelines, gets `{ $match: { isDeleted: false } }`
prepended. -/
theorem C2_default_exclusion :
    (∀ (q : MongoQuery) (o : QueryOptions), q.isDeletedCond = none → o.withDeleted = false →
        (excludeDeleted q o).isDeletedCond = some false ∧
        ∀ d : TombDoc, queryMatches (excludeDeleted q o) d = true → d.isDeleted = false) ∧
    (∀ (q : MongoQuery) (o : QueryOptions), o.withDeleted = true → excludeDeleted q o = q) ∧
    (∀ (q : MongoQuery) (o : QueryOptions) (d : TombDoc),
        o.withDeleted = true → q.isDeletedCond = none →
        queryMatches (excludeDeleted q o) d = q.pred d) ∧
    (∀ m ∈ ["find", "findOne", "count", "countDocuments", "distinct",
            "updateOne", "updateMany"], m ∈ queryMiddleware) ∧
    (∀ (o : QueryOptions) (p : List AggStage), o.withDeleted = false →
        pipelineFiltersDeep p = false →
        preAggregate o p = .matchStage (some false) :: p) := by
  refine ⟨?_, ?_, ?_, ?_, ?_⟩
  · intro q o hq ho
    have he : excludeDeleted q o = { q with isDeletedCond := some false } := by
      simp [excludeDeleted, hq, ho]
    constructor
    · rw [he]
    · intro d hd
      rw [he] at hd
      simp only [queryMatches, Bool.and_eq_true] at hd
      simpa using hd.1
  · intro q o ho
    simp [excludeDeleted, ho]
  · intro q o d ho hq
    simp [excludeDeleted, ho, queryMatches, hq]
  · intro m hm
    fin_cases hm <;> decide
  · intro o p ho hdeep
    simp [preAggregate, ho, hasDeletedFilter_false_of_deep p hdeep]

/-- Witness for C2 at a concrete query, option set, document and pipeline. -/
theorem C2_default_exclusion_witness :
    ((excludeDeleted ⟨none, fun _ => true⟩ ⟨false⟩).isDeletedCond = some false) ∧
    (excludeDeleted ⟨none, fun _ => true⟩ ⟨true⟩ = ⟨none, fun _ => true⟩) ∧
    (queryMatches (excludeDeleted ⟨none, fun _ => true⟩ ⟨true⟩) ⟨true, some 4, some 8⟩ =
      (fun (_ : TombDoc) => true) ⟨true, some 4, some 8⟩) ∧
    ("updateMany" ∈ queryMiddleware) ∧
    (preAggregate ⟨false⟩ [.otherStage, .lookupStage [.otherStage]] =
      .matchStage (some false) :: [.otherStage, .lookupStage [.otherStage]]) :=
  ⟨(C2_default_exclusion.1 ⟨none, fun _ => true⟩ ⟨false⟩ rfl rfl).1,
   C2_default_exclusion.2.1 ⟨none, fun _ => true⟩ ⟨true⟩ rfl,
   C2_default_exclusion.2.2.1 ⟨none, fun _ => true⟩ ⟨true⟩ ⟨true, some 4, some 8⟩ rfl rfl,
   C2_default_exclusion.2.2.2.1 "updateMany" (by decide),
   C2_default_exclusion.2.2.2.2 ⟨false⟩ [.otherStage, .lookupStage [.otherStage]] rfl
     (by simp [pipelineFiltersDeep])⟩

/-- C1 counterexample: a non-platform actor (organization 2) targeting a task
of a different organization (5) that records the actor as its creator
resolves to `own`, not to no-scope — the own check precedes the cross-tenant
check. -/
theorem C1_cross_tenant_counterexample :
    (⟨1, 2, 3, "SuperAdmin"⟩ : UserCtx).orgId ≠ platformOrgId ∧
    (extractTargetIds ⟨9, some 5, some 6, some 1⟩ "task").2.1 = some 5 ∧
    determineScopeLevel ⟨1, 2, 3, "SuperAdmin"⟩ ⟨9, some 5, some 6, some 1⟩ "task" =
      some .own := by
  decide

/-- C1 (amended): the scope resolver always returns exactly one of own /
ownDept / crossDept / crossOrg / none, and a non-platform actor targeting a
resource of a different Tenant resolves to no scope unless the target's
extracted owner id equals the actor's id (in which case the earlier own check
wins). -/
theorem C1_scope_resolution :
    (∀ (u : UserCtx) (t : RawResource) (rt : String),
        determineScopeLevel u t rt = none ∨
        determineScopeLevel u t rt = some .own ∨
        determineScopeLevel u t rt = some .ownDept ∨
        determineScopeLevel u t rt = some .crossDept ∨
        determineScopeLevel u t rt = some .crossOrg) ∧
    (∀ (u : UserCtx) (t : RawResource) (rt : String),
        u.orgId ≠ platformOrgId →
        (extractTargetIds t rt).1 ≠ some u.id →
        (extractTargetIds t rt).2.1.isSome = true →
        (extractTargetIds t rt).2.1 ≠ some u.orgId →
        determineScopeLevel u t rt = none) := by
  constructor
  · intro u t rt
    rcases h : determineScopeLevel u t rt with _ | s
    · exact Or.inl rfl
    · cases s
      · exact Or.inr (Or.inl rfl)
      · exact Or.inr (Or.inr (Or.inl rfl))
      · exact Or.inr (Or.inr (Or.inr (Or.inl rfl)))
      · exact Or.inr (Or.inr (Or.inr (Or.inr rfl)))
  · intro u t rt h1 h2 h3 h4
    unfold determineScopeLevel
    simp only [if_neg h2, if_pos (And.intro h3 h4), if_neg h1]

/-- Witness for C1 (amended): a non-platform user reading a foreign-tenant
task created by someone else gets no scope. -/
theorem C1_scope_resolution_witness :
    ((⟨1, 2, 3, "User"⟩ : UserCtx).orgId ≠ platformOrgId) ∧
    determineScopeLevel ⟨1, 2, 3, "User"⟩ ⟨9, some 5, some 6, some 7⟩ "task" = none :=
  ⟨by decide,
   C1_scope_resolution.2 ⟨1, 2, 3, "User"⟩ ⟨9, some 5, some 6, some 7⟩ "task"
     (by decide) (by decide) (by decide) (by decide)⟩

/-- C7 counterexample: with a tombstoned actor, `authenticate` rejects with
the 401 user-not-found error (the default isDeleted filter hides the user
from `findById`); with a tombstoned Tenant it rejects with the generic 401
authentication-failed error (the tombstoned organization populates as null
and the token-match dereference fails); neither is a distinct
AccountDeactivated error, and the no-session rejection carries the same 401
status, so no separate error class distinguishes the deactivated cases. -/
theorem C7_deactivated_error_counterexample :
    authenticate (some ⟨10, "a@x.com", 1, 2, "User"⟩)
      ⟨[⟨10, "a@x.com", 1, 2, "User", true⟩], [⟨1, false⟩], [⟨2, false⟩]⟩ =
      .error ⟨401, "User not found. Please log in again."⟩ ∧
    authenticate (some ⟨11, "b@x.com", 1, 2, "User"⟩)
      ⟨[⟨11, "b@x.com", 1, 2, "User", false⟩], [⟨1, true⟩], [⟨2, false⟩]⟩ =
      .error ⟨401, "Authentication failed. Please log in again."⟩ ∧
    authenticate none
      ⟨[⟨10, "a@x.com", 1, 2, "User", true⟩], [⟨1, false⟩], [⟨2, false⟩]⟩ =
      .error ⟨401, "Authentication required. Please log in."⟩ :=
  ⟨rfl, rfl, rfl⟩

/-- C7 (amended): `authenticate` rejects with 401 Unauthorized in every
failure case and never with a distinct deactivated-account error. No
session: 401 authentication-required. Tombstoned actor: 401 user-not-found
(the default-exclusion filter on `findById` hides the user). Tombstoned
Tenant (with a matching token email): the organization populates as null, so
the deactivation check — which reads an unselected field — never fires, and
the token-match dereference fails into the generic 401
authentication-failed error; likewise for a tombstoned Sub-tenant. The three
deactivated-account branches of auth.js are unreachable on every input, and
authentication succeeds only when the actor is active and active Tenant and
Sub-tenant records back the populated references. -/
theorem C7_deactivation_rejections :
    (∀ db : AuthDB,
        authenticate none db = .error ⟨401, "Authentication required. Please log in."⟩) ∧
    (∀ (t : DecodedToken) (db : AuthDB),
        (∀ u ∈ db.users, u.id = t.userId → u.isDeleted = true) →
        authenticate (some t) db = .error ⟨401, "User not found. Please log in again."⟩) ∧
    (∀ (t : DecodedToken) (db : AuthDB) (u : AuthUserDoc),
        db.users.find? (fun x => x.id == t.userId && !x.isDeleted) = some u →
        t.email = u.email →
        (∀ o ∈ db.orgs, o.id = u.organization → o.isDeleted = true) →
        authenticate (some t) db =
          .error ⟨401, "Authentication failed. Please log in again."⟩) ∧
    (∀ (t : DecodedToken) (db : AuthDB) (u : AuthUserDoc) (org : OrgDoc),
        db.users.find? (fun x => x.id == t.userId && !x.isDeleted) = some u →
        t.email = u.email →
        db.orgs.find? (fun o => o.id == u.organization && !o.isDeleted) = some org →
        t.organizationId = org.id →
        (∀ d ∈ db.depts, d.id = u.department → d.isDeleted = true) →
        authenticate (some t) db =
          .error ⟨401, "Authentication failed. Please log in again."⟩) ∧
    (∀ (token : Option DecodedToken) (db : AuthDB),
        isDeactivatedMessage (authenticate token db) = false) ∧
    (∀ (t : DecodedToken) (db : AuthDB) (u : AuthUserDoc),
        authenticate (some t) db = .ok u →
        u.isDeleted = false ∧
        (∃ org ∈ db.orgs, org.id = u.organization ∧ org.isDeleted = false) ∧
        (∃ dept ∈ db.depts, dept.id = u.department ∧ dept.isDeleted = false)) := by
  refine ⟨fun db => rfl, ?_, ?_, ?_, ?_, ?_⟩
  · intro t db h
    have hf : db.users.find? (fun u => u.id == t.userId && !u.isDeleted) = none := by
      rw [List.find?_eq_none]
      intro u hu
      simp only [Bool.and_eq_true, beq_iff_eq, Bool.not_eq_true', not_and]
      intro hid
      simp [h u hu hid]
    simp [authenticate, hf]
  · intro t db u hu hemail horgall
    have horg : db.orgs.find? (fun o => o.id == u.organization && !o.isDeleted) = none := by
      rw [List.find?_eq_none]
      intro o ho
      simp only [Bool.and_eq_true, beq_iff_eq, Bool.not_eq_true', not_and]
      intro hid
      simp [horgall o ho hid]
    have hv := List.find?_some hu
    have hud : u.isDeleted = false := by
      simp only [Bool.and_eq_true, Bool.not_eq_true'] at hv
      exact hv.2
    simp [authenticate, hu, hud, horg, populatedIsDeleted, hemail]
  · intro t db u org hu hemail horg horgid hdeptall
    have hdept : db.depts.find? (fun d => d.id == u.department && !d.isDeleted) = none := by
      rw [List.find?_eq_none]
      intro d hd
      simp only [Bool.and_eq_true, beq_iff_eq, Bool.not_eq_true', not_and]
      intro hid
      simp [hdeptall d hd hid]
    have hv := List.find?_some hu
    have hud : u.isDeleted = false := by
      simp only [Bool.and_eq_true, Bool.not_eq_true'] at hv
      exact hv.2
    simp [authenticate, hu, hud, horg, hdept, populatedIsDeleted, hemail, horgid]
  · intro token db
    rcases token with _ | t
    · simp [authenticate, isDeactivatedMessage]
    · rcases hf : db.users.find? (fun x => x.id == t.userId && !x.isDeleted) with _ | v
      · simp [authenticate, hf, isDeactivatedMessage]
      · have hv := List.find?_some hf
        have hvd : v.isDeleted = false := by
          simp only [Bool.and_eq_true, Bool.not_eq_true'] at hv
          exact hv.2
        by_cases hemail : t.email ≠ v.email
        · simp [authenticate, hf, hvd, populatedIsDeleted, hemail, isDeactivatedMessage]
        · rcases horg : db.orgs.find? (fun o => o.id == v.organization && !o.isDeleted)
            with _ | o
          · simp [authenticate, hf, hvd, populatedIsDeleted, hemail, horg,
              isDeactivatedMessage]
          · by_cases hoid : t.organizationId ≠ o.id
            · simp [authenticate, hf, hvd, populatedIsDeleted, hemail, horg, hoid,
                isDeactivatedMessage]
            · rcases hdept : db.depts.find? (fun d => d.id == v.department && !d.isDeleted)
                with _ | d
              · simp [authenticate, hf, hvd, populatedIsDeleted, hemail, horg, hoid,
                  hdept, isDeactivatedMessage]
              · by_cases hdid : t.departmentId ≠ d.id
                · simp [authenticate, hf, hvd, populatedIsDeleted, hemail, horg, hoid,
                    hdept, hdid, isDeactivatedMessage]
                · simp [authenticate, hf, hvd, populatedIsDeleted, hemail, horg, hoid,
                    hdept, hdid, isDeactivatedMessage]
  · intro t db u h
    rcases hf : db.users.find? (fun x => x.id == t.userId && !x.isDeleted) with _ | v
    · simp [authenticate, hf] at h
    · have hv := List.find?_some hf
      have hvd : v.isDeleted = false := by
        simp only [Bool.and_eq_true, Bool.not_eq_true'] at hv
        exact hv.2
      by_cases hemail : t.email ≠ v.email
      · simp [authenticate, hf, hvd, populatedIsDeleted, hemail] at h
      · rcases horg : db.orgs.find? (fun o => o.id == v.organization && !o.isDeleted)
          with _ | o
        · simp [authenticate, hf, hvd, populatedIsDeleted, hemail, horg] at h
        · by_cases hoid : t.organizationId ≠ o.id
          · simp [authenticate, hf, hvd, populatedIsDeleted, hemail, horg, hoid] at h
          · rcases hdept : db.depts.find? (fun d => d.id == v.department && !d.isDeleted)
              with _ | d
            · simp [authenticate, hf, hvd, populatedIsDeleted, hemail, horg, hoid,
                hdept] at h
            · by_cases hdid : t.departmentId ≠ d.id
              · simp [authenticate, hf, hvd, populatedIsDeleted, hemail, horg, hoid,
                  hdept, hdid] at h
              · have hvu : v = u := by
                  simpa [authenticate, hf, hvd, populatedIsDeleted, hemail, horg, hoid,
                    hdept, hdid] using h
                subst hvu
                have hpo := List.find?_some horg
                have hpd := List.find?_some hdept
                simp only [Bool.and_eq_true, beq_iff_eq, Bool.not_eq_true'] at hpo hpd
                refine ⟨hvd, ?_, ?_⟩
                · exact ⟨o, List.mem_of_find?_eq_some horg, hpo.1, hpo.2⟩
                · exact ⟨d, List.mem_of_find?_eq_some hdept, hpd.1, hpd.2⟩

/-- Witness for C7 (amended) at concrete databases for each failure case and
a successful authentication. -/
theorem C7_deactivation_rejections_witness :
    (authenticate none ⟨[], [], []⟩ =
      .error ⟨401, "Authentication required. Please log in."⟩) ∧
    (authenticate (some ⟨10, "a@x.com", 1, 2, "User"⟩)
        ⟨[⟨10, "a@x.com", 1, 2, "User", true⟩], [⟨1, false⟩], [⟨2, false⟩]⟩ =
      .error ⟨401, "User not found. Please log in again."⟩) ∧
    (authenticate (some ⟨11, "b@x.com", 1, 2, "User"⟩)
        ⟨[⟨11, "b@x.com", 1, 2, "User", false⟩], [⟨1, true⟩], [⟨2, false⟩]⟩ =
      .error ⟨401, "Authentication failed. Please log in again."⟩) ∧
    (authenticate (some ⟨12, "c@x.com", 1, 2, "User"⟩)
        ⟨[⟨12, "c@x.com", 1, 2, "User", false⟩], [⟨1, false⟩], [⟨2, true⟩]⟩ =
      .error ⟨401, "Authentication failed. Please log in again."⟩) ∧
    (isDeactivatedMessage (authenticate (some ⟨11, "b@x.com", 1, 2, "User"⟩)
        ⟨[⟨11, "b@x.com", 1, 2, "User", false⟩], [⟨1, true⟩], [⟨2, false⟩]⟩) = false) ∧
    ((⟨12, "c@x.com", 1, 2, "User", false⟩ : AuthUserDoc).isDeleted = false) :=
  ⟨C7_deactivation_rejections.1 ⟨[], [], []⟩,
   C7_deactivation_rejections.2.1 ⟨10, "a@x.com", 1, 2, "User"⟩
     ⟨[⟨10, "a@x.com", 1, 2, "User", true⟩], [⟨1, false⟩], [⟨2, false⟩]⟩
     (by intro u hu hid; simp at hu; simp [hu]),
   C7_deactivation_rejections.2.2.1 ⟨11, "b@x.com", 1, 2, "User"⟩
     ⟨[⟨11, "b@x.com", 1, 2, "User", false⟩], [⟨1, true⟩], [⟨2, false⟩]⟩
     ⟨11, "b@x.com", 1, 2, "User", false⟩ rfl rfl
     (by intro o ho hid; simp at ho; simp [ho]),
   C7_deactivation_rejections.2.2.2.1 ⟨12, "c@x.com", 1, 2, "User"⟩
     ⟨[⟨12, "c@x.com", 1, 2, "User", false⟩], [⟨1, false⟩], [⟨2, true⟩]⟩
     ⟨12, "c@x.com", 1, 2, "User", false⟩ ⟨1, false⟩ rfl rfl rfl rfl
     (by intro d hd hid; simp at hd; simp [hd]),
   C7_deactivation_rejections.2.2.2.2.1 (some ⟨11, "b@x.com", 1, 2, "User"⟩)
     ⟨[⟨11, "b@x.com", 1, 2, "User", false⟩], [⟨1, true⟩], [⟨2, false⟩]⟩,
   (C7_deactivation_rejections.2.2.2.2.2 ⟨12, "c@x.com", 1, 2, "User"⟩
     ⟨[⟨12, "c@x.com", 1, 2, "User", false⟩], [⟨1, false⟩], [⟨2, false⟩]⟩
     ⟨12, "c@x.com", 1, 2, "User", false⟩ rfl).1⟩

/-- C8 (code bug): `restoreOrganization` can never restore anything — its
`findById` lookup runs the plugin's default `isDeleted: false` filter, so a
tombstoned organization is reported as 404 not-found (the conflict checks and
the restore call are unreachable), and an active organization is rejected as
400 not-deleted. In particular the documented RestoreConflict (409) rejection
for a name collision is never produced; on the claim's own scenario the
caller gets 404. -/
theorem C8_restore_conflict_unreachable :
    (∀ (orgId : Nat) (db : List OrgRecord),
        restoreResultIsError (restoreOrganization orgId db) = true) ∧
    restoreOrganization 2
      [⟨1, "Acme", "admin@acme.com", false, none, none⟩,
       ⟨2, "Acme", "other@acme.com", true, some 3, some 9⟩] =
      .error ⟨404, "Organization not found."⟩ := by
  constructor
  · intro orgId db
    by_cases hp : orgId = platformOrgId
    · simp [restoreOrganization, hp, restoreResultIsError]
    · rcases hf : db.find? (fun o => o.id == orgId && !o.isDeleted) with _ | org
      · simp [restoreOrganization, hp, hf, restoreResultIsError]
      · have hv := List.find?_some hf
        have hod : org.isDeleted = false := by
          simp only [Bool.and_eq_true, Bool.not_eq_true'] at hv
          exact hv.2
        simp [restoreOrganization, hp, hf, hod, restoreResultIsError]
  · rfl

/-- A cascade updateMany leaves an entity of a different kind unchanged. -/
theorem cascade_skip (now : Nat) (parent : Entity) (edge : CascadeEdge) (e : Entity)
    (h : e.kind ≠ edge.model) : tombstoneByCascade now parent edge e = e :=
  if_neg (fun hc => h hc.1)

/-- A cascade updateMany leaves an entity unchanged when its foreign key does
not point at the parent or it is already tombstoned. -/
theorem cascade_miss (now : Nat) (parent : Entity) (edge : CascadeEdge) (e : Entity)
    (h : ¬(fieldValue e edge.field = some parent.id ∧ e.isDeleted = false)) :
    tombstoneByCascade now parent edge e = e :=
  if_neg (fun hc => h ⟨hc.2.1, hc.2.2⟩)

/-- A cascade updateMany over an `organization` edge tombstones a matching
active entity, leaving `deletedBy` untouched. -/
theorem cascade_hit_org (now : Nat) (parent : Entity) (m : String) (e : Entity)
    (hk : e.kind = m) (ho : e.organization = some parent.id) (ha : e.isDeleted = false) :
    tombstoneByCascade now parent ⟨m, "organization", false, false⟩ e =
      { e with isDeleted := true, deletedAt := some now } := by
  unfold tombstoneByCascade
  rw [if_pos ⟨hk, by simpa [fieldValue] using ho, ha⟩]
  simp

/-- When no edge in the list sets the recursive flag, the cascade foldl is a
plain map of the per-entity edge chain over the collection. -/
theorem exec_step_eq_map (f now : Nat) (parent : Entity) (edges : List CascadeEdge)
    (hnc : ∀ edge ∈ edges, edge.cascade = false) :
    ∀ w : List Entity,
      edges.foldl (fun wAcc edge =>
        let w2 := wAcc.map (tombstoneByCascade now parent edge)
        if edge.cascade then
          (w2.filter (fun e => decide (cascadeHits parent edge e))).foldl
            (fun w3 child => executeCascadeDelete f now child w3) w2
        else w2) w =
      w.map (applyEdges now parent edges) := by
  induction edges with
  | nil =>
    intro w
    show w = w.map (fun e => e)
    simp
  | cons edge rest ih =>
    intro w
    have hc : edge.cascade = false := hnc edge (by simp)
    simp only [List.foldl_cons, hc, Bool.false_eq_true, if_false]
    rw [ih (fun e he => hnc e (by simp [he]))]
    rw [List.map_map]
    rfl

/-- `executeCascadeDelete` with fuel left, on a parent whose declared edges
all leave the recursive flag unset, maps the edge chain over the world. -/
theorem executeCascadeDelete_succ_eq (f now : Nat) (parent : Entity) (w : List Entity)
    (hnc : ∀ edge ∈ cascadeConfigOf parent.kind, edge.cascade = false) :
    executeCascadeDelete (f + 1) now parent w =
      w.map (applyEdges now parent (cascadeConfigOf parent.kind)) := by
  show (cascadeConfigOf parent.kind).foldl _ w = _
  exact exec_step_eq_map f now parent _ hnc w

/-- The chain of the six Organization cascade edges acts on one entity
exactly as `orgDirectStep`. -/
theorem applyEdges_org (now : Nat) (parent : Entity) (e : Entity) :
    applyEdges now parent organizationCascade e = orgDirectStep now parent e := by
  simp only [applyEdges, organizationCascade, List.foldl_cons, List.foldl_nil]
  by_cases hcond : e.organization = some parent.id ∧ e.isDeleted = false
  · obtain ⟨ho, ha⟩ := hcond
    by_cases hmem : e.kind ∈ directOrgCascadeKinds
    · simp only [directOrgCascadeKinds, List.mem_cons, List.not_mem_nil, or_false] at hmem
      rcases hmem with hk | hk | hk | hk | hk | hk
      · rw [cascade_hit_org now parent "Department" e hk ho ha]
        rw [cascade_miss now parent ⟨"User", "organization", false, false⟩ _ (by simp [fieldValue])]
        rw [cascade_miss now parent ⟨"BaseTask", "organization", false, false⟩ _ (by simp [fieldValue])]
        rw [cascade_miss now parent ⟨"Material", "organization", false, false⟩ _ (by simp [fieldValue])]
        rw [cascade_miss now parent ⟨"Vendor", "organization", false, false⟩ _ (by simp [fieldValue])]
        rw [cascade_miss now parent ⟨"Notification", "organization", false, false⟩ _ (by simp [fieldValue])]
        unfold orgDirectStep
        rw [if_pos ⟨by simp [directOrgCascadeKinds, hk], ho, ha⟩]
      · rw [cascade_skip now parent ⟨"Department", "organization", false, false⟩ e (by simp [hk])]
        rw [cascade_hit_org now parent "User" e hk ho ha]
        rw [cascade_miss now parent ⟨"BaseTask", "organization", false, false⟩ _ (by simp [fieldValue])]
        rw [cascade_miss now parent ⟨"Material", "organization", false, false⟩ _ (by simp [fieldValue])]
        rw [cascade_miss now parent ⟨"Vendor", "organization", false, false⟩ _ (by simp [fieldValue])]
        rw [cascade_miss now parent ⟨"Notification", "organization", false, false⟩ _ (by simp [fieldValue])]
        unfold orgDirectStep
        rw [if_pos ⟨by simp [directOrgCascadeKinds, hk], ho, ha⟩]
      · rw [cascade_skip now parent ⟨"Department", "organization", false, false⟩ e (by simp [hk])]
        rw [cascade_skip now parent ⟨"User", "organization", false, false⟩ e (by simp [hk])]
        rw [cascade_hit_org now parent "BaseTask" e hk ho ha]
        rw [cascade_miss now parent ⟨"Material", "organization", false, false⟩ _ (by simp [fieldValue])]
        rw [cascade_miss now parent ⟨"Vendor", "organization", false, false⟩ _ (by simp [fieldValue])]
        rw [cascade_miss now parent ⟨"Notification", "organization", false, false⟩ _ (by simp [fieldValue])]
        unfold orgDirectStep
        rw [if_pos ⟨by simp [directOrgCascadeKinds, hk], ho, ha⟩]
      · rw [cascade_skip now parent ⟨"Department", "organization", false, false⟩ e (by simp [hk])]
        rw [cascade_skip now parent ⟨"User", "organization", false, false⟩ e (by simp [hk])]
        rw [cascade_skip now parent ⟨"BaseTask", "organization", false, false⟩ e (by simp [hk])]
        rw [cascade_hit_org now parent "Material" e hk ho ha]
        rw [cascade_miss now parent ⟨"Vendor", "organization", false, false⟩ _ (by simp [fieldValue])]
        rw [cascade_miss now parent ⟨"Notification", "organization", false, false⟩ _ (by simp [fieldValue])]
        unfold orgDirectStep
        rw [if_pos ⟨by simp [directOrgCascadeKinds, hk], ho, ha⟩]
      · rw [cascade_skip now parent ⟨"Department", "organization", false, false⟩ e (by simp [hk])]
        rw [cascade_skip now parent ⟨"User", "organization", false, false⟩ e (by simp [hk])]
        rw [cascade_skip now parent ⟨"BaseTask", "organization", false, false⟩ e (by simp [hk])]
        rw [cascade_skip now parent ⟨"Material", "organization", false, false⟩ e (by simp [hk])]
        rw [cascade_hit_org now parent "Vendor" e hk ho ha]
        rw [cascade_miss now parent ⟨"Notification", "organization", false, false⟩ _ (by simp [fieldValue])]
        unfold orgDirectStep
        rw [if_pos ⟨by simp [directOrgCascadeKinds, hk], ho, ha⟩]
      · rw [cascade_skip now parent ⟨"Department", "organization", false, false⟩ e (by simp [hk])]
        rw [cascade_skip now parent ⟨"User", "organization", false, false⟩ e (by simp [hk])]
        rw [cascade_skip now parent ⟨"BaseTask", "organization", false, false⟩ e (by simp [hk])]
        rw [cascade_skip now parent ⟨"Material", "organization", false, false⟩ e (by simp [hk])]
        rw [cascade_skip now parent ⟨"Vendor", "organization", false, false⟩ e (by simp [hk])]
        rw [cascade_hit_org now parent "Notification" e hk ho ha]
        unfold orgDirectStep
        rw [if_pos ⟨by simp [directOrgCascadeKinds, hk], ho, ha⟩]
    · have h6 : e.kind ≠ "Department" ∧ e.kind ≠ "User" ∧ e.kind ≠ "BaseTask" ∧
          e.kind ≠ "Material" ∧ e.kind ≠ "Vendor" ∧ e.kind ≠ "Notification" := by
        simpa [directOrgCascadeKinds, not_or] using hmem
      rw [cascade_skip now parent ⟨"Department", "organization", false, false⟩ e h6.1]
      rw [cascade_skip now parent ⟨"User", "organization", false, false⟩ e h6.2.1]
      rw [cascade_skip now parent ⟨"BaseTask", "organization", false, false⟩ e h6.2.2.1]
      rw [cascade_skip now parent ⟨"Material", "organization", false, false⟩ e h6.2.2.2.1]
      rw [cascade_skip now parent ⟨"Vendor", "organization", false, false⟩ e h6.2.2.2.2.1]
      rw [cascade_skip now parent ⟨"Notification", "organization", false, false⟩ e h6.2.2.2.2.2]
      unfold orgDirectStep
      rw [if_neg (fun hcon => hmem hcon.1)]
  · have hm : ∀ edge : CascadeEdge, edge.field = "organization" →
        tombstoneByCascade now parent edge e = e := by
      intro edge hf
      refine cascade_miss now parent edge e ?_
      rw [hf]
      simpa [fieldValue] using hcond
    rw [hm ⟨"Department", "organization", false, false⟩ rfl]
    rw [hm ⟨"User", "organization", false, false⟩ rfl]
    rw [hm ⟨"BaseTask", "organization", false, false⟩ rfl]
    rw [hm ⟨"Material", "organization", false, false⟩ rfl]
    rw [hm ⟨"Vendor", "organization", false, false⟩ rfl]
    rw [hm ⟨"Notification", "organization", false, false⟩ rfl]
    unfold orgDirectStep
    rw [if_neg (fun hcon => hcond ⟨hcon.2.1, hcon.2.2⟩)]

/-- C4 counterexample: tombstoning an Organization tombstones its BaseTask
(a direct cascade target) but not the task's TaskActivity — the cascade does
not walk further, contradicting the claimed transitive application (the
declared edges set no recursive flag, and the recursive re-query would be
emptied by the default isDeleted filter anyway). -/
theorem C4_cascade_not_transitive_counterexample :
    softDeleteEntity (some 9) 5
      ⟨1, "Organization", none, none, none, none, none, false, none, none⟩
      [⟨1, "Organization", none, none, none, none, none, false, none, none⟩,
       ⟨2, "BaseTask", some 1, none, none, none, none, false, none, none⟩,
       ⟨3, "TaskActivity", none, none, some 2, none, none, false, none, none⟩] =
      [⟨1, "Organization", none, none, none, none, none, true, some 5, some 9⟩,
       ⟨2, "BaseTask", some 1, none, none, none, none, true, some 5, none⟩,
       ⟨3, "TaskActivity", none, none, some 2, none, none, false, none, none⟩] := by
  decide

set_option maxHeartbeats 1000000 in
/-- C4 (amended): tombstoning a Tenant (Organization) tombstones exactly the
organization record itself and every currently-active entity of the six
directly-declared cascade kinds (Department, User, BaseTask, Material,
Vendor, Notification) referencing it — so a Tenant with 2 Sub-tenants and 5
Actors has those 2+5 records flip to `isDeleted = true` — but the cascade is
one level only: no declared edge sets the recursive flag, so records owned by
a cascade target (a Task's Activities, Comments and Attachments) are left
unchanged. -/
theorem C4_direct_cascade_characterization (actor : Option Nat) (now : Nat)
    (o : Entity) (w : List Entity)
    (hkind : o.kind = "Organization") (hactive : o.isDeleted = false) :
    softDeleteEntity actor now o w = w.map (orgCascadeResult actor now o) ∧
    (∀ e : Entity, e.kind ∈ directOrgCascadeKinds → e.organization = some o.id →
        e.isDeleted = false → (orgCascadeResult actor now o e).isDeleted = true) ∧
    (∀ e : Entity, e.kind = "TaskActivity" ∨ e.kind = "TaskComment" ∨ e.kind = "Attachment" →
        orgCascadeResult actor now o e = e) := by
  refine ⟨?_, ?_, ?_⟩
  · simp only [softDeleteEntity, hactive, hkind]
    rw [if_pos ⟨trivial, by simp [cascadeConfigOf, organizationCascade]⟩]
    rw [executeCascadeDelete_succ_eq _ _ _ _ (by simp [cascadeConfigOf, organizationCascade])]
    rw [List.map_map]
    congr 1
    funext e
    simp only [Function.comp_apply]
    simp only [cascadeConfigOf, if_true]
    rw [applyEdges_org]
    by_cases hpar : e.id = o.id ∧ e.kind = "Organization"
    · rw [if_pos hpar]
      simp only [orgDirectStep, orgCascadeResult]
      rw [hkind]
      rw [if_neg (fun hcon => by simpa [directOrgCascadeKinds] using hcon.1)]
      rw [if_pos hpar]
    · rw [if_neg hpar]
      simp only [orgDirectStep, orgCascadeResult]
      rw [hkind]
      rw [if_neg hpar]
  · intro e hk ho ha
    simp only [orgCascadeResult]
    split_ifs with h1 h2
    · rfl
    · rfl
    · exact absurd ⟨hk, ho, ha⟩ h2
  · intro e hk
    have h1 : ¬(e.id = o.id ∧ e.kind = o.kind) := by
      rintro ⟨-, hek⟩
      rw [hkind] at hek
      rcases hk with hk | hk | hk <;> rw [hk] at hek <;> exact absurd hek (by decide)
    have h2 : ¬(e.kind ∈ directOrgCascadeKinds ∧ e.organization = some o.id ∧
        e.isDeleted = false) := by
      rintro ⟨hmem, -, -⟩
      rcases hk with hk | hk | hk <;> rw [hk] at hmem <;> exact absurd hmem (by decide)
    simp only [orgCascadeResult, if_neg h1, if_neg h2]

/-- Witness for C4 (amended): a Tenant with 2 Sub-tenants and 5 Actors; the
theorem applies and exactly the 2+5 descendants (plus the organization
record) flip to tombstoned. -/
theorem C4_direct_cascade_characterization_witness :
    (softDeleteEntity (some 99) 7
        ⟨1, "Organization", none, none, none, none, none, false, none, none⟩
        [⟨1, "Organization", none, none, none, none, none, false, none, none⟩,
         ⟨2, "Department", some 1, none, none, none, none, false, none, none⟩,
         ⟨3, "Department", some 1, none, none, none, none, false, none, none⟩,
         ⟨4, "User", some 1, some 2, none, none, none, false, none, none⟩,
         ⟨5, "User", some 1, some 2, none, none, none, false, none, none⟩,
         ⟨6, "User", some 1, some 3, none, none, none, false, none, none⟩,
         ⟨7, "User", some 1, some 3, none, none, none, false, none, none⟩,
         ⟨8, "User", some 1, some 3, none, none, none, false, none, none⟩] =
      List.map (orgCascadeResult (some 99) 7
        ⟨1, "Organization", none, none, none, none, none, false, none, none⟩)
        [⟨1, "Organization", none, none, none, none, none, false, none, none⟩,
         ⟨2, "Department", some 1, none, none, none, none, false, none, none⟩,
         ⟨3, "Department", some 1, none, none, none, none, false, none, none⟩,
         ⟨4, "User", some 1, some 2, none, none, none, false, none, none⟩,
         ⟨5, "User", some 1, some 2, none, none, none, false, none, none⟩,
         ⟨6, "User", some 1, some 3, none, none, none, false, none, none⟩,
         ⟨7, "User", some 1, some 3, none, none, none, false, none, none⟩,
         ⟨8, "User", some 1, some 3, none, none, none, false, none, none⟩]) ∧
    (List.map (orgCascadeResult (some 99) 7
        ⟨1, "Organization", none, none, none, none, none, false, none, none⟩)
        [⟨1, "Organization", none, none, none, none, none, false, none, none⟩,
         ⟨2, "Department", some 1, none, none, none, none, false, none, none⟩,
         ⟨3, "Department", some 1, none, none, none, none, false, none, none⟩,
         ⟨4, "User", some 1, some 2, none, none, none, false, none, none⟩,
         ⟨5, "User", some 1, some 2, none, none, none, false, none, none⟩,
         ⟨6, "User", some 1, some 3, none, none, none, false, none, none⟩,
         ⟨7, "User", some 1, some 3, none, none, none, false, none, none⟩,
         ⟨8, "User", some 1, some 3, none, none, none, false, none, none⟩]).countP
      (fun e => e.isDeleted) = 8 :=
  ⟨(C4_direct_cascade_characterization (some 99) 7
      ⟨1, "Organization", none, none, none, none, none, false, none, none⟩ _ rfl rfl).1,
   by decide⟩

end TaskManager

